import Mathlib

/-!
Shallow embedding of the AWS-Cost-Analyzer repository
(src/cost_by_service.py and src/cost_analyzer.py) in Lean 4.

Modelling conventions:
  * Python floats are modelled as exact rationals (ℚ).  All amounts in the
    claims are small decimal literals whose arithmetic is exact in binary
    floating point as well, and the spec itself states the order-invariance
    property only "within floating-point tolerance"; the rational model is
    the idealized-arithmetic reading of the code.
  * A CSV data row produced by csv.DictReader is a record of optional string
    fields (a field is `none` when the column is absent from the header,
    `some ""` when present but empty).
  * The Python dict `totals` (insertion ordered, as Python dicts are) is an
    association list without duplicate keys; `updateTotals` mirrors
    `totals[service] = totals.get(service, 0.0) + amount`.
  * File and network effects are made explicit: functions that in Python
    read files or call AWS receive the already-parsed contents / the finite
    stream of API responses as arguments, and functions that write or exit
    return a record describing what was written and the exit code.
-/

namespace CostAnalyzer

/-! ## Generic small helpers -/

/-- Model of Python `str.strip()` with no argument: drop whitespace from
both ends. -/
def pyStrip (s : String) : String :=
  ⟨((s.data.dropWhile Char.isWhitespace).reverse.dropWhile Char.isWhitespace).reverse⟩

/-- Numeric value of a list of decimal digit characters, most significant
first, as in the mantissa of a Python float literal. -/
def digitsToNat (l : List Char) : Nat :=
  l.foldl (fun a c => a * 10 + (c.toNat - 48)) 0

/-- Power of ten as a rational, through Nat power (kernel-computable). -/
def pow10 (n : Nat) : ℚ :=
  ((10 ^ n : Nat) : ℚ)

/-- Integer power of ten as a rational. -/
def pow10Int : Int → ℚ
  | .ofNat n => pow10 n
  | .negSucc n => 1 / pow10 (n + 1)

/-- Floor of a rational, as floor division of numerator by denominator. -/
def ratFloor (q : ℚ) : Int :=
  Int.fdiv q.num (q.den : Int)

/-- Parse an optional exponent suffix of a float literal: the empty string
yields exponent 0; otherwise the whole remainder must be `e`/`E`, an optional
sign and at least one digit. Returns `none` when the remainder is not a valid
exponent (so the whole literal is rejected, as float() rejects it). -/
def parseExponent (cs : List Char) : Option Int :=
  match cs with
  | [] => some 0
  | c :: t =>
    if c = 'e' ∨ c = 'E' then
      let signAndRest : Int × List Char :=
        match t with
        | '+' :: u => (1, u)
        | '-' :: u => (-1, u)
        | _ => (1, t)
      let eds := signAndRest.2.takeWhile Char.isDigit
      if eds.isEmpty ∨ ¬(signAndRest.2.dropWhile Char.isDigit).isEmpty then none
      else some (signAndRest.1 * (digitsToNat eds : Int))
    else none

/-- Model of Python `float(s)` on already-stripped text: an optional sign,
digits with an optional decimal point (at least one digit overall), and an
optional exponent.  Returns `none` exactly when `float` raises ValueError on
such strings.  (The special spellings `inf`/`nan` and digit underscores are
outside the model; every string the repository handles is covered.) -/
def parseFloat (s : String) : Option ℚ :=
  let cs := s.data
  let signed : ℚ × List Char :=
    match cs with
    | '+' :: t => (1, t)
    | '-' :: t => (-1, t)
    | _ => (1, cs)
  let ids := signed.2.takeWhile Char.isDigit
  let rest1 := signed.2.dropWhile Char.isDigit
  let fracAndRest : List Char × List Char :=
    match rest1 with
    | '.' :: t => (t.takeWhile Char.isDigit, t.dropWhile Char.isDigit)
    | _ => ([], rest1)
  if ids.isEmpty ∧ fracAndRest.1.isEmpty then none
  else
    match parseExponent fracAndRest.2 with
    | none => none
    | some e =>
      let mantissa : ℚ :=
        (digitsToNat ids : ℚ) +
          (digitsToNat fracAndRest.1 : ℚ) / pow10 fracAndRest.1.length
      some (signed.1 * mantissa * pow10Int e)

/-- Round a rational to the nearest integer, ties to even: the rounding mode
of Python float formatting with a fixed number of decimals. -/
def roundHalfEven (q : ℚ) : Int :=
  let f := ratFloor q
  let r := q - Rat.ofInt f
  if r < 1 / 2 then f
  else if 1 / 2 < r then f + 1
  else if f % 2 = 0 then f else f + 1

/-- Insert a comma after every third character of a reversed digit string:
the thousands grouping of the format spec `,.2f`, applied to the reversed
integer part. -/
def insertCommasRev : List Char → List Char
  | [] => []
  | [a] => [a]
  | [a, b] => [a, b]
  | [a, b, c] => [a, b, c]
  | a :: b :: c :: rest => a :: b :: c :: ',' :: insertCommasRev rest

/-- Decimal representation of a natural number with thousands separators. -/
def commaGrouped (n : Nat) : String :=
  ⟨(insertCommasRev (Nat.repr n).data.reverse).reverse⟩

/-- Two-digit zero-padded decimal representation of `n < 100`. -/
def twoDigits (n : Nat) : String :=
  if n < 10 then "0" ++ Nat.repr n else Nat.repr n

/-- Model of the Python format `f"{amount:,.2f}"`: round to cents (ties to
even), sign, thousands-grouped integer part, dot, two fraction digits. -/
def formatFixed2 (q : ℚ) : String :=
  let cents := roundHalfEven (q * 100)
  let sgn := if cents < 0 then "-" else ""
  let n := cents.natAbs
  sgn ++ commaGrouped (n / 100) ++ "." ++ twoDigits (n % 100)

/-! ## cost_by_service.py : load_costs -/

/-- One data row of the input CSV as csv.DictReader yields it: each named
column is `none` when absent from the header, `some ""` when empty. -/
structure CsvRow where
  service : Option String
  amount : Option String
  unit : Option String
deriving DecidableEq, Repr

/-- Line 57: `(row.get("service") or "").strip() or "Uncategorized"`. -/
def serviceOf (r : CsvRow) : String :=
  let s := pyStrip (r.service.getD "")
  if s = "" then "Uncategorized" else s

/-- Line 58: `(row.get("amount") or "0").strip()` — the `or` fires on both a
missing column and an empty string, before stripping. -/
def amountStrOf (r : CsvRow) : String :=
  pyStrip
    (match r.amount with
      | none => "0"
      | some a => if a = "" then "0" else a)

/-- Lines 63-66: `float(amount_str)` with ValueError defaulting to 0.0. -/
def amountOf (r : CsvRow) : ℚ :=
  (parseFloat (amountStrOf r)).getD 0

/-- Line 59: `(row.get("unit") or "").strip()`. -/
def unitOfRow (r : CsvRow) : String :=
  pyStrip (r.unit.getD "")

/-- Line 68: `totals[service] = totals.get(service, 0.0) + amount` on an
insertion-ordered dict: an existing key is updated in place, a new key is
appended at the end. -/
def updateTotals (totals : List (String × ℚ)) (key : String) (amt : ℚ) :
    List (String × ℚ) :=
  match totals with
  | [] => [(key, amt)]
  | (k, v) :: rest =>
    if k = key then (k, v + amt) :: rest else (k, v) :: updateTotals rest key amt

/-- Value of `totals.get(s, 0.0)` on the association-list model. -/
def lookupTotal (totals : List (String × ℚ)) (s : String) : ℚ :=
  match totals with
  | [] => 0
  | (k, v) :: rest => if k = s then v else lookupTotal rest s

/-- One iteration of the `for row in reader` loop of load_costs, threading
the `(totals, unit)` state (lines 56-68). -/
def loadStep (st : List (String × ℚ) × String) (r : CsvRow) :
    List (String × ℚ) × String :=
  let u := unitOfRow r
  (updateTotals st.1 (serviceOf r) (amountOf r), if u = "" then st.2 else u)

/-- Lines 46-70 of cost_by_service.py, given the parsed rows of an existing
input file: returns the per-service totals dict and the unit, which starts
at "USD" and is overwritten by every row with a non-empty unit field. -/
def load_costs (rows : List CsvRow) : List (String × ℚ) × String :=
  rows.foldl loadStep ([], "USD")

/-! ## cost_by_service.py : write_summary -/

/-- Insert a totals entry into a list sorted by amount descending, before the
first entry of smaller-or-equal amount: the stable descending insertion of
`sorted(totals.items(), key=lambda item: item[1], reverse=True)`. -/
def insertDesc (x : String × ℚ) : List (String × ℚ) → List (String × ℚ)
  | [] => [x]
  | y :: ys => if y.2 ≤ x.2 then x :: y :: ys else y :: insertDesc x ys

/-- Stable sort by amount descending (line 74), as an insertion sort: a
stable descending sort is unique, so this computes exactly the list Python
produces. -/
def sortDesc : List (String × ℚ) → List (String × ℚ)
  | [] => []
  | x :: xs => insertDesc x (sortDesc xs)

/-- Line 83-85: one output row `[service, formatted_amount, unit]` with the
currency prefix applied when the unit is "USD". -/
def summaryRow (unit : String) (item : String × ℚ) : List String :=
  [item.1, (if unit = "USD" then "$" else "") ++ formatFixed2 item.2, unit]

/-- Lines 73-85 of cost_by_service.py: the full list of CSV records written
to the output file, header first, then one row per totals entry sorted by
amount descending. -/
def write_summary (totals : List (String × ℚ)) (unit : String) :
    List (List String) :=
  ["service", "total_amount", "unit"] :: (sortDesc totals).map (summaryRow unit)

/-! ## cost_by_service.py : main -/

/-- Observable outcome of one run of cost_by_service.main: the exit code,
whether the "No cost data found" message was printed, the summary records
written to the output file (`none` when the file was never opened), and
whether the Google-Sheets upload was attempted. -/
structure SummaryRun where
  exitCode : Nat
  printedNoData : Bool
  summaryWritten : Option (List (List String))
  uploaded : Bool
deriving DecidableEq, Repr

/-- Lines 88-114 of cost_by_service.py. `input?` is `none` when the input
file does not exist (load_costs then exits 1 before reading), otherwise the
parsed data rows; `gcpKeyExists` is the `os.path.exists(args.gcp_key)` test.
When the totals dict is empty, main prints a message and returns (exit 0)
without opening the output file or uploading. -/
def cbs_main (input? : Option (List CsvRow)) (gcpKeyExists : Bool) : SummaryRun :=
  match input? with
  | none => ⟨1, false, none, false⟩
  | some rows =>
    let out := load_costs rows
    if out.1.isEmpty then ⟨0, true, none, false⟩
    else ⟨0, false, some (write_summary out.1 out.2), gcpKeyExists⟩

/-! ## cost_analyzer.py : data model of the Cost Explorer responses

Optional dictionary fields are `Option`; a two-level lookup with `{}`
defaults, such as `group.get("Metrics", {}).get("UnblendedCost", {})`, is
collapsed into a single `Option UCMetric` (an absent outer dict and an absent
inner key give the same empty dict, hence the same row). -/

/-- The metric dict `{"Amount": ..., "Unit": ...}`, both keys optional. -/
structure UCMetric where
  amount : Option String
  unit : Option String
deriving DecidableEq, Repr

/-- One entry of `period["Groups"]`: optional `"Keys"` list and the
`Metrics → UnblendedCost` metric dict. -/
structure CEGroup where
  keys : Option (List String)
  unblendedCost : Option UCMetric
deriving DecidableEq, Repr

/-- The `"TimePeriod"` sub-dict with optional `"Start"` and `"End"` keys
(`stop` models the key `"End"`). -/
structure TimePeriodRange where
  start : Option String
  stop : Option String
deriving DecidableEq, Repr

/-- One element of `ResultsByTime`: optional `TimePeriod`, `Groups`
(default `[]`) and `Total → UnblendedCost`. -/
structure TimePeriodResult where
  timePeriod : Option TimePeriodRange
  groups : Option (List CEGroup)
  totalUnblended : Option UCMetric
deriving DecidableEq, Repr

/-- The two values of the `--group-by` flag. -/
inductive GroupBy where
  | SERVICE
  | NONE
deriving DecidableEq, Repr

/-- One row of the output CSV (lines 336-347 and 352-363). -/
structure OutRow where
  account_id : String
  account_name : String
  period_start : String
  period_end : String
  granularity : String
  service : String
  amount : String
  unit : String
deriving DecidableEq, Repr

/-- Value of `metric.get("Amount", "0")` through the collapsed two-level lookup. -/
def metricAmount (m : Option UCMetric) : String :=
  (m.bind UCMetric.amount).getD "0"

/-- Value of `metric.get("Unit", "USD")` through the collapsed two-level lookup. -/
def metricUnit (m : Option UCMetric) : String :=
  (m.bind UCMetric.unit).getD "USD"

/-! ## cost_analyzer.py : fetch_costs (lines 260-292) -/

/-- One response of `get_cost_and_usage`: `ResultsByTime` (default `[]`)
and the optional `NextPageToken`. -/
structure CEResponse where
  resultsByTime : Option (List TimePeriodResult)
  nextPageToken : Option String
deriving DecidableEq, Repr

/-- Python truthiness of the token (`if not next_token: break`): a missing
token and an empty-string token both end the loop. -/
def tokenTruthy : Option String → Bool
  | none => false
  | some s => !(s == "")

/-- Lines 278-292: the pagination loop, with the client modelled as the
finite stream of responses the API returns to the successive calls (each
call after the first carries the previous response token in the request).
Every response's `ResultsByTime` is appended; the loop stops after the first
response whose token is falsy. -/
def fetch_costs : List CEResponse → List TimePeriodResult
  | [] => []
  | r :: rest =>
    r.resultsByTime.getD [] ++
      (if tokenTruthy r.nextPageToken then fetch_costs rest else [])

/-! ## cost_analyzer.py : get_account_info (lines 119-135) -/

/-- Lines 119-135: `stsCall` is the result of `get_caller_identity`
(its optional `"Account"` field on success, `Except.error` when the call
raises), `iamCall` the result of `list_account_aliases` (its optional
`"AccountAliases"` list).  Both failures are swallowed: the account id
defaults to `""`, the name to `""` unless the alias list is non-empty. -/
def get_account_info (stsCall : Except Unit (Option String))
    (iamCall : Except Unit (Option (List String))) : String × String :=
  (match stsCall with
    | .ok identity => identity.getD ""
    | .error _ => "",
   match iamCall with
    | .ok response => ((response.getD []).head?).getD ""
    | .error _ => "")

/-! ## cost_analyzer.py : process_account flattening (lines 324-363) -/

/-- Lines 330-347: the row emitted for one group in SERVICE mode. -/
def serviceRow (accountId accountName periodStart periodEnd granularity : String)
    (g : CEGroup) : OutRow :=
  { account_id := accountId
    account_name := accountName
    period_start := periodStart
    period_end := periodEnd
    granularity := granularity
    service := ((g.keys.getD []).head?).getD ""
    amount := metricAmount g.unblendedCost
    unit := metricUnit g.unblendedCost }

/-- Lines 348-363: the single row emitted for one period in NONE mode. -/
def totalRow (accountId accountName periodStart periodEnd granularity : String)
    (m : Option UCMetric) : OutRow :=
  { account_id := accountId
    account_name := accountName
    period_start := periodStart
    period_end := periodEnd
    granularity := granularity
    service := ""
    amount := metricAmount m
    unit := metricUnit m }

/-- Lines 325-363: the rows of one `ResultsByTime` element — one per group
in SERVICE mode, one per period in NONE mode. -/
def flattenPeriod (accountId accountName granularity : String) (groupBy : GroupBy)
    (p : TimePeriodResult) : List OutRow :=
  let ps := (p.timePeriod.bind TimePeriodRange.start).getD ""
  let pe := (p.timePeriod.bind TimePeriodRange.stop).getD ""
  match groupBy with
  | .SERVICE => (p.groups.getD []).map (serviceRow accountId accountName ps pe granularity)
  | .NONE => [totalRow accountId accountName ps pe granularity p.totalUnblended]

/-! ## cost_analyzer.py : load_aws_accounts and main (lines 105-116, 371-434) -/

/-- One entry of the `accounts` list of the configuration file. -/
structure AccountConfig where
  aws_access_key_id : Option String
  aws_secret_access_key : Option String
  region : Option String
deriving DecidableEq, Repr

/-- The parsed configuration file: `config.get("accounts", [])` makes the
`accounts` key optional with default `[]`. -/
structure AccountsConfig where
  accounts : Option (List AccountConfig)
deriving DecidableEq, Repr

/-- Lines 105-116: `Except.error 1` models `sys.exit(1)` on a missing
configuration file (the argument is `none`), otherwise the `accounts` list
with default `[]`. -/
def load_aws_accounts : Option AccountsConfig → Except Nat (List AccountConfig)
  | none => Except.error 1
  | some cfg => Except.ok (cfg.accounts.getD [])

/-- Lines 295-324 around the flattening: credentials are checked for Python
truthiness (a missing or empty key skips the account with no rows); the
identity pair and the fetched periods stand for the network calls. -/
def process_account (cfg : AccountConfig) (info : String × String)
    (results : List TimePeriodResult) (granularity : String) (groupBy : GroupBy) :
    List OutRow :=
  if cfg.aws_access_key_id.getD "" = "" ∨ cfg.aws_secret_access_key.getD "" = "" then []
  else (results.map (flattenPeriod info.1 info.2 granularity groupBy)).flatten

/-- The header written at lines 387-398. -/
def analyzerHeader : List String :=
  ["account_id", "account_name", "period_start", "period_end",
   "granularity", "service", "amount", "unit"]

/-- CSV record of one cost row (lines 409-410). -/
def csvOfOutRow (r : OutRow) : List String :=
  [r.account_id, r.account_name, r.period_start, r.period_end,
   r.granularity, r.service, r.amount, r.unit]

/-- Observable outcome of cost_analyzer.main up to the claims: the process
exit code and the records written to the output CSV, `none` when the file
was never opened. -/
structure AnalyzerResult where
  exitCode : Nat
  outputWritten : Option (List (List String))
deriving DecidableEq, Repr

/-- Lines 371-434 of cost_analyzer.py. `config?` is the parsed configuration
file (`none` when absent); `accountRows` abstracts the network side of
`process_account` for each account; `downstreamExit` abstracts the exit code
determined after the CSV is written (0, or the code of a failing downstream
aggregation subprocess).  The output file is opened, and its header written,
only after the account list is checked to be non-empty; an empty list exits
with code 1 before the file is touched. -/
def analyzer_main (config? : Option AccountsConfig)
    (accountRows : AccountConfig → List OutRow) (downstreamExit : Nat) :
    AnalyzerResult :=
  match load_aws_accounts config? with
  | .error c => ⟨c, none⟩
  | .ok accounts =>
    if accounts.isEmpty then ⟨1, none⟩
    else
      ⟨downstreamExit,
       some (analyzerHeader :: ((accounts.map accountRows).flatten).map csvOfOutRow)⟩

/-! ## Helper lemmas -/

attribute [local semireducible] Rat.add Rat.mul Rat.inv Rat.sub

/-- Contribution of one row to the total of service `s`. -/
def contrib (s : String) (r : CsvRow) : ℚ :=
  if serviceOf r = s then amountOf r else 0

theorem lookupTotal_updateTotals (t : List (String × ℚ)) (k : String) (a : ℚ)
    (s : String) :
    lookupTotal (updateTotals t k a) s = lookupTotal t s + (if k = s then a else 0) := by
  induction t with
  | nil =>
    simp only [updateTotals, lookupTotal]
    split <;> simp
  | cons hd tl ih =>
    obtain ⟨kh, v⟩ := hd
    simp only [updateTotals]
    by_cases hk : kh = k
    · subst hk
      simp only [if_pos rfl, lookupTotal]
      by_cases hs : kh = s
      · simp [hs]
      · simp [hs]
    · simp only [if_neg hk, lookupTotal]
      by_cases hs : kh = s
      · have hks : ¬k = s := fun he => hk (he ▸ hs)
        simp [hs, hks]
      · simp [hs, ih]

theorem lookupTotal_foldl (rows : List CsvRow) (t : List (String × ℚ)) (u : String)
    (s : String) :
    lookupTotal ((rows.foldl loadStep (t, u)).1) s =
      lookupTotal t s + ((rows.map (contrib s)).sum) := by
  induction rows generalizing t u with
  | nil => simp
  | cons r rest ih =>
    simp only [List.foldl_cons, List.map_cons, List.sum_cons]
    show lookupTotal ((rest.foldl loadStep
      (updateTotals t (serviceOf r) (amountOf r),
        if unitOfRow r = "" then u else unitOfRow r)).1) s = _
    rw [ih, lookupTotal_updateTotals]
    simp only [contrib]
    ring

theorem load_costs_lookup (rows : List CsvRow) (s : String) :
    lookupTotal (load_costs rows).1 s = ((rows.map (contrib s)).sum) := by
  simpa [lookupTotal] using lookupTotal_foldl rows [] "USD" s

theorem insertDesc_perm (x : String × ℚ) (l : List (String × ℚ)) :
    (insertDesc x l).Perm (x :: l) := by
  induction l with
  | nil => exact List.Perm.refl _
  | cons y ys ih =>
    simp only [insertDesc]
    split
    · exact List.Perm.refl _
    · exact (List.Perm.cons y ih).trans (List.Perm.swap x y ys)

theorem sortDesc_perm (l : List (String × ℚ)) : (sortDesc l).Perm l := by
  induction l with
  | nil => exact List.Perm.refl _
  | cons x xs ih => exact (insertDesc_perm x (sortDesc xs)).trans (List.Perm.cons x ih)

theorem pairwise_insertDesc (x : String × ℚ) (l : List (String × ℚ))
    (h : l.Pairwise (fun a b => b.2 ≤ a.2)) :
    (insertDesc x l).Pairwise (fun a b => b.2 ≤ a.2) := by
  induction l with
  | nil => simp [insertDesc]
  | cons y ys ih =>
    rcases List.pairwise_cons.mp h with ⟨hy, hys⟩
    simp only [insertDesc]
    split
    case isTrue hle =>
      refine List.pairwise_cons.mpr ⟨?_, h⟩
      intro z hz
      rcases List.mem_cons.mp hz with rfl | hz2
      · exact hle
      · exact le_trans (hy z hz2) hle
    case isFalse hgt =>
      refine List.pairwise_cons.mpr ⟨?_, ih hys⟩
      intro z hz
      rcases List.mem_cons.mp ((insertDesc_perm x ys).mem_iff.mp hz) with rfl | hz2
      · exact le_of_not_le hgt
      · exact hy z hz2

theorem sortDesc_pairwise (l : List (String × ℚ)) :
    (sortDesc l).Pairwise (fun a b => b.2 ≤ a.2) := by
  induction l with
  | nil => simp [sortDesc]
  | cons x xs ih => exact pairwise_insertDesc x _ ih

theorem getLast?_getD_cons (x : String) (l : List String) (d : String) :
    ((x :: l).getLast?).getD d = (l.getLast?).getD x := by
  induction l generalizing x d with
  | nil => simp
  | cons y t ih => rw [List.getLast?_cons_cons, ih, ih]

theorem load_costs_unit_foldl (rows : List CsvRow) (t : List (String × ℚ))
    (u : String) :
    (rows.foldl loadStep (t, u)).2 =
      ((((rows.map unitOfRow).filter (fun x => x != "")).getLast?).getD u) := by
  induction rows generalizing t u with
  | nil => simp
  | cons r rest ih =>
    simp only [List.foldl_cons, List.map_cons]
    by_cases hu : unitOfRow r = ""
    · show (rest.foldl loadStep
        (updateTotals t (serviceOf r) (amountOf r),
          if unitOfRow r = "" then u else unitOfRow r)).2 = _
      rw [if_pos hu, ih]
      simp [List.filter_cons, hu]
    · show (rest.foldl loadStep
        (updateTotals t (serviceOf r) (amountOf r),
          if unitOfRow r = "" then u else unitOfRow r)).2 = _
      rw [if_neg hu, ih]
      have hb : ((unitOfRow r) != "") = true := by simpa using hu
      simp only [List.filter_cons, hb, if_true]
      rw [getLast?_getD_cons]

/-! ## Claim theorems -/

/-- C1: for every multiset of cost rows, the per-service aggregate totals
computed by load_costs are the same value regardless of the order in which
the input rows appear in the CSV: the total of every service over any
permutation of the rows is unchanged. -/
theorem c1_totals_order_invariant (rows rows2 : List CsvRow)
    (h : rows.Perm rows2) (s : String) :
    lookupTotal (load_costs rows).1 s = lookupTotal (load_costs rows2).1 s := by
  rw [load_costs_lookup, load_costs_lookup]
  exact (h.map (contrib s)).sum_eq

/-- Witness for C1 at a concrete pair of reordered row lists. -/
theorem c1_totals_order_invariant_witness :
    lookupTotal (load_costs
      [⟨some "EC2", some "1.25", some "USD"⟩, ⟨some "S3", some "2", none⟩]).1 "EC2" =
    lookupTotal (load_costs
      [⟨some "S3", some "2", none⟩, ⟨some "EC2", some "1.25", some "USD"⟩]).1 "EC2" :=
  c1_totals_order_invariant _ _ (by decide) "EC2"

/-- C2: for every non-empty totals mapping, write_summary emits the header
followed by one row per totals entry, in an order in which the underlying
amounts are pairwise descending; the emitted entries are a permutation of
the totals, so ties may appear in either order but nothing is lost. -/
theorem c2_summary_sorted_desc (totals : List (String × ℚ)) (unit : String)
    (_h : totals ≠ []) :
    write_summary totals unit =
        ["service", "total_amount", "unit"] :: (sortDesc totals).map (summaryRow unit)
      ∧ (sortDesc totals).Pairwise (fun a b => b.2 ≤ a.2)
      ∧ (sortDesc totals).Perm totals :=
  ⟨rfl, sortDesc_pairwise totals, sortDesc_perm totals⟩

/-- Witness for C2 at a concrete two-entry totals mapping. -/
theorem c2_summary_sorted_desc_witness :
    write_summary [("A", (1 : ℚ)), ("B", 2)] "USD" =
        ["service", "total_amount", "unit"] ::
          (sortDesc [("A", (1 : ℚ)), ("B", 2)]).map (summaryRow "USD")
      ∧ (sortDesc [("A", (1 : ℚ)), ("B", 2)]).Pairwise (fun a b => b.2 ≤ a.2)
      ∧ (sortDesc [("A", (1 : ℚ)), ("B", 2)]).Perm [("A", (1 : ℚ)), ("B", 2)] :=
  c2_summary_sorted_desc [("A", (1 : ℚ)), ("B", 2)] "USD" (by decide)

/-- C3: a row whose (defaulted, stripped) amount text does not parse as a
float contributes zero to every service total: deleting it from the row list
changes no lookup, and aggregation is a total function, so no error is
raised. -/
theorem c3_unparsable_amount_is_zero (pre post : List CsvRow) (r : CsvRow)
    (s : String) (h : parseFloat (amountStrOf r) = none) :
    lookupTotal (load_costs (pre ++ r :: post)).1 s =
      lookupTotal (load_costs (pre ++ post)).1 s := by
  rw [load_costs_lookup, load_costs_lookup]
  simp [contrib, amountOf, h]

/-- Witness for C3 at a concrete row with amount text `abc`. -/
theorem c3_unparsable_amount_is_zero_witness :
    lookupTotal (load_costs ([] ++ ⟨some "EC2", some "abc", none⟩ :: [])).1 "EC2" =
      lookupTotal (load_costs ([] ++ [])).1 "EC2" :=
  c3_unparsable_amount_is_zero [] [] ⟨some "EC2", some "abc", none⟩ "EC2" (by decide)

/-- C4: the concrete rows (EC2, 10.50), (EC2, 4.50), (S3, 2.00) with unit
USD aggregate and print to exactly the row `EC2,$15.00,USD` followed by
`S3,$2.00,USD`, after the header. -/
theorem c4_example_rows :
    (let out := load_costs
      [⟨some "EC2", some "10.50", some "USD"⟩,
       ⟨some "EC2", some "4.50", some "USD"⟩,
       ⟨some "S3", some "2.00", some "USD"⟩]
     write_summary out.1 out.2) =
    [["service", "total_amount", "unit"],
     ["EC2", "$15.00", "USD"],
     ["S3", "$2.00", "USD"]] := by decide

/-- C5: when the configuration file yields zero configured accounts, the
analyzer main exits with a non-zero code and the output CSV is never opened
or written. -/
theorem c5_empty_accounts_no_output (cfg : AccountsConfig)
    (accountRows : AccountConfig → List OutRow) (downstreamExit : Nat)
    (h : cfg.accounts.getD [] = []) :
    (analyzer_main (some cfg) accountRows downstreamExit).exitCode ≠ 0 ∧
      (analyzer_main (some cfg) accountRows downstreamExit).outputWritten = none := by
  simp [analyzer_main, load_aws_accounts, h]

/-- Witness for C5 at a concrete configuration with an empty accounts list. -/
theorem c5_empty_accounts_no_output_witness :
    (analyzer_main (some ⟨some []⟩) (fun _ => []) 0).exitCode ≠ 0 ∧
      (analyzer_main (some ⟨some []⟩) (fun _ => []) 0).outputWritten = none :=
  c5_empty_accounts_no_output ⟨some []⟩ (fun _ => []) 0 (by decide)

/-- C6: flattening emits exactly one serviceRow per group in SERVICE mode
and one totalRow per period in NONE mode, and in both row constructors a
missing amount field defaults to "0" and a missing unit field defaults to
"USD". -/
theorem c6_missing_metric_defaults (aid an gran ps pe : String)
    (p : TimePeriodResult) (g : CEGroup) (m : Option UCMetric) :
    flattenPeriod aid an gran GroupBy.SERVICE p =
        (p.groups.getD []).map
          (serviceRow aid an ((p.timePeriod.bind TimePeriodRange.start).getD "")
            ((p.timePeriod.bind TimePeriodRange.stop).getD "") gran)
      ∧ flattenPeriod aid an gran GroupBy.NONE p =
        [totalRow aid an ((p.timePeriod.bind TimePeriodRange.start).getD "")
          ((p.timePeriod.bind TimePeriodRange.stop).getD "") gran p.totalUnblended]
      ∧ (g.unblendedCost.bind UCMetric.amount = none →
          (serviceRow aid an ps pe gran g).amount = "0")
      ∧ (g.unblendedCost.bind UCMetric.unit = none →
          (serviceRow aid an ps pe gran g).unit = "USD")
      ∧ (m.bind UCMetric.amount = none → (totalRow aid an ps pe gran m).amount = "0")
      ∧ (m.bind UCMetric.unit = none → (totalRow aid an ps pe gran m).unit = "USD") := by
  refine ⟨rfl, rfl, ?_, ?_, ?_, ?_⟩ <;>
    intro h <;> simp [serviceRow, totalRow, metricAmount, metricUnit, h]

/-- Witness for C6 at concrete groups and metrics with the fields missing. -/
theorem c6_missing_metric_defaults_witness :
    (serviceRow "a" "n" "s" "e" "DAILY" ⟨some ["EC2"], none⟩).amount = "0"
      ∧ (serviceRow "a" "n" "s" "e" "DAILY" ⟨some ["EC2"], some ⟨some "3", none⟩⟩).unit = "USD"
      ∧ (totalRow "a" "n" "s" "e" "DAILY" none).amount = "0"
      ∧ (totalRow "a" "n" "s" "e" "DAILY" (some ⟨some "3", none⟩)).unit = "USD" :=
  ⟨(c6_missing_metric_defaults "a" "n" "DAILY" "s" "e" ⟨none, none, none⟩
      ⟨some ["EC2"], none⟩ none).2.2.1 (by decide),
   (c6_missing_metric_defaults "a" "n" "DAILY" "s" "e" ⟨none, none, none⟩
      ⟨some ["EC2"], some ⟨some "3", none⟩⟩ none).2.2.2.1 (by decide),
   (c6_missing_metric_defaults "a" "n" "DAILY" "s" "e" ⟨none, none, none⟩
      ⟨some [], none⟩ none).2.2.2.2.1 (by decide),
   (c6_missing_metric_defaults "a" "n" "DAILY" "s" "e" ⟨none, none, none⟩
      ⟨some [], none⟩ (some ⟨some "3", none⟩)).2.2.2.2.2 (by decide)⟩

/-- C7: a failing identity-check call yields the empty string as account id
and a failing alias-listing call yields the empty string as account name,
whatever the other call returns; get_account_info is a total function, so
neither failure propagates. -/
theorem c7_identity_failures_swallowed (stsCall : Except Unit (Option String))
    (iamCall : Except Unit (Option (List String))) :
    (get_account_info (Except.error ()) iamCall).1 = ""
      ∧ (get_account_info stsCall (Except.error ())).2 = "" :=
  ⟨rfl, rfl⟩

/-- C8: over every finite sequence of responses in which each response
before the last carries a (truthy) continuation token and the last does not,
fetch_costs returns the concatenation of all responses' time-period results
in page order. -/
theorem c8_pagination_concat (pages : List CEResponse)
    (hmid : ∀ r ∈ pages.dropLast, tokenTruthy r.nextPageToken = true)
    (hlast : ∀ r, pages.getLast? = some r → tokenTruthy r.nextPageToken = false) :
    fetch_costs pages = (pages.map (fun r => r.resultsByTime.getD [])).flatten := by
  induction pages with
  | nil => rfl
  | cons r rest ih =>
    cases rest with
    | nil =>
      have h := hlast r rfl
      simp [fetch_costs, h]
    | cons r2 rest2 =>
      have hr : tokenTruthy r.nextPageToken = true :=
        hmid r (by exact List.mem_cons_self r _)
      have hm2 : ∀ x ∈ (r2 :: rest2).dropLast, tokenTruthy x.nextPageToken = true := by
        intro x hx
        exact hmid x (List.mem_cons_of_mem r hx)
      have hl2 : ∀ x, (r2 :: rest2).getLast? = some x →
          tokenTruthy x.nextPageToken = false := by
        intro x hx
        exact hlast x (by rw [List.getLast?_cons_cons]; exact hx)
      have h2 := ih hm2 hl2
      simp only [fetch_costs, List.map_cons, List.flatten_cons] at h2 ⊢
      rw [hr, if_pos rfl, h2]

/-- Witness for C8 at a concrete two-page response sequence. -/
theorem c8_pagination_concat_witness :
    fetch_costs
      [⟨some [⟨none, none, none⟩], some "tok"⟩,
       ⟨some [⟨none, none, some ⟨some "5", none⟩⟩], none⟩] =
    (([⟨some [⟨none, none, none⟩], some "tok"⟩,
       ⟨some [⟨none, none, some ⟨some "5", none⟩⟩], none⟩] :
        List CEResponse).map (fun r => r.resultsByTime.getD [])).flatten :=
  c8_pagination_concat _ (by decide) (by decide)

/-- C9: load_costs returns one unit for the whole summary, the unit field of
the last row with a non-empty unit (or "USD" when there is none), and every
data row write_summary emits ends in that one unit. -/
theorem c9_single_summary_unit (rows : List CsvRow) (totals : List (String × ℚ))
    (unit : String) :
    (load_costs rows).2 =
        ((((rows.map unitOfRow).filter (fun x => x != "")).getLast?).getD "USD")
      ∧ ∀ row ∈ (write_summary totals unit).drop 1, row.getLast? = some unit := by
  constructor
  · exact load_costs_unit_foldl rows [] "USD"
  · intro row hrow
    simp only [write_summary, List.drop_succ_cons, List.drop_zero] at hrow
    obtain ⟨item, _, rfl⟩ := List.mem_map.mp hrow
    rfl

/-- Witness for C9: concrete rows whose last non-empty unit is "EUR", and a
concrete emitted data row ending in the summary unit. -/
theorem c9_single_summary_unit_witness :
    (load_costs [⟨some "EC2", some "1", some "EUR"⟩, ⟨some "S3", some "2", none⟩]).2 =
        (((([⟨some "EC2", some "1", some "EUR"⟩, ⟨some "S3", some "2", none⟩] :
            List CsvRow).map unitOfRow).filter (fun x => x != "")).getLast?).getD "USD"
      ∧ (["S3", "2.00", "EUR"] : List String).getLast? = some "EUR" :=
  ⟨(c9_single_summary_unit
      [⟨some "EC2", some "1", some "EUR"⟩, ⟨some "S3", some "2", none⟩] [] "EUR").1,
   (c9_single_summary_unit
      [⟨some "EC2", some "1", some "EUR"⟩, ⟨some "S3", some "2", none⟩]
      [("S3", 2)] "EUR").2 ["S3", "2.00", "EUR"] (by decide)⟩

/-- C10: when the input CSV exists but yields no data rows, main prints the
no-data message, writes no summary file, attempts no upload, and exits with
code zero, whether or not the Google key file is present. -/
theorem c10_no_data_rows (gcpKeyExists : Bool) :
    cbs_main (some []) gcpKeyExists =
      { exitCode := 0, printedNoData := true, summaryWritten := none,
        uploaded := false } :=
  rfl

end CostAnalyzer
